import Mathlib

/-!
Verification of the numerical core of the pdebench-web repository: a shallow
embedding, in Lean 4, of the equation model, the analytical and
finite-difference heat-equation solvers, the parameter-validation service and
the grid-comparison utilities, together with theorems settling the spec's
claims about them.

Python floats are modelled as real numbers (`ℝ`) where transcendental
functions appear, and as rationals (`ℚ`) in the purely arithmetic
validation/comparison modules, so that those definitions stay executable.
-/

namespace PdeBench

/-! ## Shared grid helpers

`np.linspace(0, 1, nx)` and `np.linspace(0, T, nt)` as used by
`backend/solvers/finite_difference.py` and `core/solvers/analytical.py`.
-/

/-- Spatial grid point `x[i]` of `np.linspace(0, 1, nx)`: `i / (nx - 1)`. -/
noncomputable def xGrid (nx i : ℕ) : ℝ := (i : ℝ) / ((nx - 1 : ℕ) : ℝ)

/-- Temporal grid point `t[j]` of `np.linspace(0, T, nt)`: `j * (T / (nt - 1))`. -/
noncomputable def tGrid (T : ℝ) (nt j : ℕ) : ℝ := (j : ℝ) * (T / ((nt - 1 : ℕ) : ℝ))

/-- `dx = 1.0 / (nx - 1)` from `FiniteDifferenceSolver.solve`.  (For `nx = 1`
the Python source raises `ZeroDivisionError`; the embedded real division
yields `0` there, so every theorem below assumes `2 ≤ nx`.) -/
noncomputable def dxVal (nx : ℕ) : ℝ := 1 / ((nx - 1 : ℕ) : ℝ)

/-- `dt = T / (nt - 1)` from `FiniteDifferenceSolver.solve`. -/
noncomputable def dtVal (T : ℝ) (nt : ℕ) : ℝ := T / ((nt - 1 : ℕ) : ℝ)

/-- The diffusion number `r = alpha * dt / dx**2`. -/
noncomputable def rVal (alpha : ℝ) (nx nt : ℕ) (T : ℝ) : ℝ := alpha * dtVal T nt / dxVal nx ^ 2

/-! ## backend/solvers/finite_difference.py -/

/-- Row 0 of the field in `FiniteDifferenceSolver.solve`: the dispatch on
`ic_type`.  An unrecognized tag leaves the `np.zeros` row untouched, so the
final branch is `0`. -/
noncomputable def icFD (ic : String) (x : ℝ) : ℝ :=
  if ic = "sinusoidal" then Real.sin (Real.pi * x)
  else if ic = "gaussian" then Real.exp (-100 * (x - 1 / 2) ^ 2)
  else if ic = "step" then (if x < 1 / 2 then 1 else 0)
  else 0

/-- The interior FTCS update `for i in range(1, nx - 1)` writing row `n+1`
from row `n`, before the boundary overwrite.  Positions outside
`1 ≤ i ≤ nx - 2` keep the fresh `np.zeros` value `0` at this stage. -/
noncomputable def fdInterior (r : ℝ) (nx : ℕ) (row : ℕ → ℝ) (i : ℕ) : ℝ :=
  if 1 ≤ i ∧ i + 1 < nx then row i + r * (row (i + 1) - 2 * row i + row (i - 1)) else 0

/-- The boundary overwrite of row `n+1` dispatching on `bc_type`:
`dirichlet` pins both ends to `0`; `neumann` copies each end from its nearest
interior neighbour of the freshly computed row; `mixed` is Dirichlet on the
left and Neumann on the right; an unrecognized tag leaves the row as the
interior pass produced it.  The sequential aliasing in the source (the right
end is written after the left) only matters for `nx = 2` under `neumann`,
where both reads see `0`, which this simultaneous form also yields. -/
noncomputable def fdApplyBC (bc : String) (nx : ℕ) (next : ℕ → ℝ) (i : ℕ) : ℝ :=
  if bc = "dirichlet" then
    (if i = 0 then 0 else if i = nx - 1 then 0 else next i)
  else if bc = "neumann" then
    (if i = 0 then next 1 else if i = nx - 1 then next (nx - 2) else next i)
  else if bc = "mixed" then
    (if i = 0 then 0 else if i = nx - 1 then next (nx - 2) else next i)
  else next i

/-- Row `n` of the solution field `u` produced by
`FiniteDifferenceSolver.solve` (the source computes rows `1 … nt-1`; the
recursion is total in `n`, and the theorems only inspect `n < nt`). -/
noncomputable def fdRow (alpha : ℝ) (nx nt : ℕ) (T : ℝ) (ic bc : String) : ℕ → ℕ → ℝ
  | 0 => fun i => icFD ic (xGrid nx i)
  | n + 1 => fun i =>
      fdApplyBC bc nx (fdInterior (rVal alpha nx nt T) nx (fdRow alpha nx nt T ic bc n)) i

/-! ## Python error values

The solvers and constructors below return `Except PyError _`: a thrown Python
exception is `.error`, a normal return is `.ok`.  Functions whose bodies
contain no `raise` are embedded as always returning `.ok`.
-/

/-- The Python exceptions relevant to the embedded code paths. -/
inductive PyError where
  | attributeError
deriving DecidableEq

/-- `Except.isOk` as a plain definition, for stating that a call returned
normally instead of raising. -/
def exceptOk {ε α : Type} : Except ε α → Bool
  | .ok _ => true
  | .error _ => false

/-! ## backend/equations/heat_equation.py -/

/-- The `HeatEquation` instance data: `self.alpha` and `self.L`. -/
structure HeatEquation where
  alpha : ℝ
  L : ℝ

/-- `HeatEquation.__init__`: the body only stores `alpha` and `L`; it contains
no validation and no `raise`, so construction always returns normally. -/
def heatEquationInit (alpha L : ℝ) : Except PyError HeatEquation :=
  .ok ⟨alpha, L⟩

/-- `HeatEquation.analytical_solution_dirichlet`: the truncated sine series
with `λ_n = (n·π/L)²` and the Fourier coefficient special-cased to
`B_1 = 1.0`, `B_n = 0.0` for `n ≠ 1`. -/
noncomputable def analytical_solution_dirichlet (eq : HeatEquation) (x t : ℝ) (nTerms : ℕ) : ℝ :=
  ∑ n ∈ Finset.Icc 1 nTerms,
    (if n = 1 then (1 : ℝ) else 0) * Real.sin ((n : ℝ) * Real.pi * x / eq.L) *
      Real.exp (-eq.alpha * ((n : ℝ) * Real.pi / eq.L) ^ 2 * t)

/-- The attribute names defined by `class HeatEquation` in
`backend/equations/heat_equation.py`. -/
def heatEquationAttrs : List String :=
  ["__init__", "analytical_solution_dirichlet", "analytical_solution_general",
   "get_equation_details"]

/-! ## core/solvers/analytical.py -/

/-- The `initial` array of `core/solvers/analytical.py`: unlike the
finite-difference solver, an unrecognized `ic_type` falls back to
`np.sin(np.pi * x)` (the final `else` branch of the source). -/
noncomputable def icAnalytical (ic : String) (x : ℝ) : ℝ :=
  if ic = "sinusoidal" then Real.sin (Real.pi * x)
  else if ic = "gaussian" then Real.exp (-100 * (x - 1 / 2) ^ 2)
  else if ic = "step" then (if x < 1 / 2 then 1 else 0)
  else Real.sin (Real.pi * x)

/-- The field filled by `core/solvers/analytical.py`'s
`AnalyticalSolver.solve`: both the `sinusoidal` branch and the `else` branch
of the time loop compute `initial * np.exp(-alpha * np.pi**2 * t[j])`, and
`bc_type` is never read. -/
noncomputable def analyticalSolveField (alpha : ℝ) (nx nt : ℕ) (T : ℝ) (ic : String) :
    ℕ → ℕ → ℝ :=
  fun j i => icAnalytical ic (xGrid nx i) * Real.exp (-alpha * Real.pi ^ 2 * tGrid T nt j)

/-- `AnalyticalSolver.solve` of `core/solvers/analytical.py`.  The body
contains no `raise` on any branch, so the call always returns `.ok`; the
`bc_type` argument is accepted but unused. -/
noncomputable def analyticalSolve (alpha : ℝ) (nx nt : ℕ) (T : ℝ) (ic bc : String) :
    Except PyError (ℕ → ℕ → ℝ) :=
  .ok (analyticalSolveField alpha nx nt T ic)

/-! ## backend/solvers/analytical.py -/

/-- `AnalyticalSolver.solve` of `backend/solvers/analytical.py`: it builds a
`HeatEquation` and then, for each `time` in `np.linspace(0, T, nt)`, evaluates
`equation.analytical_solution(x, time)`.  When `nt = 0` the loop body never
runs and the `np.zeros((0, nx))` field is returned; on the first iteration
otherwise, the attribute lookup `analytical_solution` fails (the class defines
no such name, see `heatEquationAttrs`), raising `AttributeError`.  The `.ok`
payload of the attribute-present branch is unreachable and stubbed with `0`. -/
def backendAnalyticalSolve (alpha : ℝ) (nx nt : ℕ) (T : ℝ) : Except PyError (ℕ → ℕ → ℝ) :=
  if nt = 0 then .ok fun _ _ => 0
  else if "analytical_solution" ∈ heatEquationAttrs then .ok fun _ _ => 0
  else .error .attributeError

/-! ## frontend/services/numerical_service.py -/

/-- The parameter dictionary consumed by
`NumericalService.validate_parameters`; a `none` field is a missing key. -/
structure NumParams where
  alpha : Option ℚ
  nx : Option ℕ
  nt : Option ℕ
  T : Option ℚ

/-- The CFL / diffusion number computed inside `validate_parameters`:
`alpha * dt / dx**2` with `dx = 1.0/(nx-1)`, `dt = T/(nt-1)`.  (For `nx = 1`
or `nt = 1` the source raises `ZeroDivisionError`; the theorems below assume
`2 ≤ nx` and `2 ≤ nt`.) -/
def cflVal (a : ℚ) (nx nt : ℕ) (T : ℚ) : ℚ :=
  a * (T / ((nt : ℚ) - 1)) / (1 / ((nx : ℚ) - 1)) ^ 2

/-- `NumericalService.validate_parameters`: collects error strings; the CFL
advisory is appended when all four keys are present and the diffusion number
exceeds `0.5`.  (The source interpolates the numeric value of the diffusion
number into the advisory text; the embedding keeps the fixed prefix.) -/
def validate_parameters (p : NumParams) : List String :=
  (match p.alpha with
   | none => ["Missing parameter: alpha"]
   | some a => if a ≤ 0 then ["Alpha must be positive"] else []) ++
  (match p.nx with
   | none => ["Missing parameter: nx"]
   | some nx => if nx < 2 then ["nx must be at least 2"] else []) ++
  (match p.nt with
   | none => ["Missing parameter: nt"]
   | some nt => if nt < 2 then ["nt must be at least 2"] else []) ++
  (match p.T with
   | none => ["Missing parameter: T"]
   | some T => if T ≤ 0 then ["T must be positive"] else []) ++
  (match p.alpha, p.nx, p.nt, p.T with
   | some a, some nx, some nt, some T =>
     if 1 / 2 < cflVal a nx nt T then ["CFL condition violated"] else []
   | _, _, _, _ => [])

/-! ## core/solvers/comparison.py and
frontend/controllers/comparison_controller.py -/

/-- One solver result as consumed by `compare_solutions`: the field rows
`data['u']` and the spatial grid `data['x']`. -/
structure SolutionData where
  u : List (List ℚ)
  x : List ℚ
deriving DecidableEq

/-- `data['u'][-1, :]`, the final-time row. -/
def lastRow (d : SolutionData) : List ℚ := d.u.getLastD []

/-- `np.allclose(a, b)` with the numpy defaults `rtol = 1e-5`, `atol = 1e-8`:
every pair satisfies `|a - b| <= atol + rtol * |b|`.  (`compare_solutions`
only calls it after checking the lengths are equal.) -/
def npAllclose (a b : List ℚ) : Bool :=
  (a.zip b).all fun p => decide (|p.1 - p.2| ≤ 1 / 100000000 + |p.2| / 100000)

/-- `np.linspace(0, 1, n)` as a rational list: `i / (n - 1)`. -/
def npLinspace01 (n : ℕ) : List ℚ :=
  (List.range n).map fun i : ℕ => (i : ℚ) / ((n : ℚ) - 1)

/-- `np.interp(q, xp, fp)` on an increasing sample list: clamps to the first
and last sample values outside the range and interpolates linearly between
the two bracketing samples inside it. -/
def npInterpPairs (q : ℚ) : List (ℚ × ℚ) → ℚ
  | [] => 0
  | [(_, y0)] => y0
  | (x0, y0) :: (x1, y1) :: rest =>
    if q ≤ x0 then y0
    else if q ≤ x1 then y0 + (y1 - y0) * (q - x0) / (x1 - x0)
    else npInterpPairs q ((x1, y1) :: rest)

/-- The triple returned by `compare_solutions`: the pointwise absolute error
array, the grid the comparison was carried out on, and the
`grids_match` flag. -/
structure ComparisonOut where
  err : List ℚ
  commonX : List ℚ
  gridsMatch : Bool
deriving DecidableEq

/-- `compare_solutions(analytical_data, numerical_data)`: `none` inputs
return the `(None, None, None)` triple; matching grids (equal length and
`np.allclose`) compare the final rows directly on the first grid; otherwise
both final rows are interpolated onto
`np.linspace(0, 1, max(len(x1), len(x2)))`. -/
def compare_solutions (a b : Option SolutionData) : Option ComparisonOut :=
  match a, b with
  | some ad, some nd =>
    if ad.x.length = nd.x.length ∧ npAllclose ad.x nd.x = true then
      some ⟨((lastRow nd).zip (lastRow ad)).map fun p => |p.1 - p.2|, ad.x, true⟩
    else
      some ⟨(((npLinspace01 (max ad.x.length nd.x.length)).map fun q =>
                npInterpPairs q (nd.x.zip (lastRow nd))).zip
              ((npLinspace01 (max ad.x.length nd.x.length)).map fun q =>
                npInterpPairs q (ad.x.zip (lastRow ad)))).map fun p => |p.1 - p.2|,
            npLinspace01 (max ad.x.length nd.x.length), false⟩
  | _, _ => none

/-- `np.max(error)` as used by
`ComparisonController.calculate_comparison_metrics` (numpy raises on an empty
array; the theorems below only apply it to nonempty error arrays). -/
def npMax : List ℚ → ℚ
  | [] => 0
  | h :: t => t.foldl max h

/-- `np.mean(error)`. -/
def npMean (l : List ℚ) : ℚ := l.sum / l.length

/-- `np.mean(error**2)`; the controller's `rmse` is `np.sqrt` of this value,
stated as `Real.sqrt` at the theorem level. -/
def npMeanSq (l : List ℚ) : ℚ := (l.map fun e => e ^ 2).sum / l.length

/-! ## The finite-difference entry point as a record-valued operation -/

/-- The explicit inputs of `FiniteDifferenceSolver.solve`. -/
structure FDParams where
  alpha : ℝ
  nx : ℕ
  nt : ℕ
  T : ℝ
  icType : String
  bcType : String

/-- `solve_finite_difference`: the `(u, x, t)` components of the returned
tuple as functions of the explicit parameters.  (The fourth component of the
Python return value is the measured wall-clock duration, which is not a
function of the inputs and is outside the embedding.) -/
noncomputable def solve_finite_difference (p : FDParams) :
    (ℕ → ℕ → ℝ) × (ℕ → ℝ) × (ℕ → ℝ) :=
  (fdRow p.alpha p.nx p.nt p.T p.icType p.bcType, xGrid p.nx, tGrid p.T p.nt)

/-! ## Helper lemmas -/

lemma fdRow_succ (alpha : ℝ) (nx nt : ℕ) (T : ℝ) (ic bc : String) (n i : ℕ) :
    fdRow alpha nx nt T ic bc (n + 1) i =
      fdApplyBC bc nx (fdInterior (rVal alpha nx nt T) nx (fdRow alpha nx nt T ic bc n)) i :=
  rfl

lemma fdApplyBC_interior (bc : String) (nx : ℕ) (next : ℕ → ℝ) (i : ℕ)
    (h0 : i ≠ 0) (h1 : i ≠ nx - 1) : fdApplyBC bc nx next i = next i := by
  unfold fdApplyBC
  split_ifs <;> rfl

/-- The interior update rule, shared by several claims: for `1 ≤ i ≤ nx - 2`
the new row entry is the FTCS stencil applied to row `n`, whatever the
boundary tag. -/
lemma fdRow_interior_step (alpha : ℝ) (nx nt : ℕ) (T : ℝ) (ic bc : String)
    (n i : ℕ) (hi1 : 1 ≤ i) (hi2 : i + 2 ≤ nx) :
    fdRow alpha nx nt T ic bc (n + 1) i =
      fdRow alpha nx nt T ic bc n i + rVal alpha nx nt T *
        (fdRow alpha nx nt T ic bc n (i + 1) - 2 * fdRow alpha nx nt T ic bc n i +
         fdRow alpha nx nt T ic bc n (i - 1)) := by
  rw [fdRow_succ, fdApplyBC_interior bc nx _ i (by omega) (by omega)]
  unfold fdInterior
  rw [if_pos ⟨hi1, by omega⟩]

lemma fdApplyBC_dirichlet_ends (nx : ℕ) (next : ℕ → ℝ) (h : 2 ≤ nx) :
    fdApplyBC "dirichlet" nx next 0 = 0 ∧ fdApplyBC "dirichlet" nx next (nx - 1) = 0 := by
  constructor
  · rfl
  · unfold fdApplyBC
    rw [if_pos rfl, if_neg (show ¬nx - 1 = 0 by omega), if_pos rfl]

lemma fdApplyBC_neumann_ends (nx : ℕ) (next : ℕ → ℝ) (h : 3 ≤ nx) :
    (fdApplyBC "neumann" nx next 0 = next 1 ∧ fdApplyBC "neumann" nx next 1 = next 1)
    ∧ (fdApplyBC "neumann" nx next (nx - 1) = next (nx - 2)
       ∧ fdApplyBC "neumann" nx next (nx - 2) = next (nx - 2)) := by
  unfold fdApplyBC
  refine ⟨⟨rfl, ?_⟩, ⟨?_, ?_⟩⟩
  · rw [if_neg (by decide : ¬("neumann" : String) = "dirichlet"), if_pos rfl,
      if_neg (by decide : ¬(1 : ℕ) = 0), if_neg (show ¬(1 : ℕ) = nx - 1 by omega)]
  · rw [if_neg (by decide : ¬("neumann" : String) = "dirichlet"), if_pos rfl,
      if_neg (show ¬nx - 1 = 0 by omega), if_pos rfl]
  · rw [if_neg (by decide : ¬("neumann" : String) = "dirichlet"), if_pos rfl,
      if_neg (show ¬nx - 2 = 0 by omega), if_neg (show ¬nx - 2 = nx - 1 by omega)]

lemma fdApplyBC_mixed_ends (nx : ℕ) (next : ℕ → ℝ) (h : 3 ≤ nx) :
    (fdApplyBC "mixed" nx next 0 = 0)
    ∧ (fdApplyBC "mixed" nx next (nx - 1) = next (nx - 2)
       ∧ fdApplyBC "mixed" nx next (nx - 2) = next (nx - 2)) := by
  unfold fdApplyBC
  refine ⟨rfl, ?_, ?_⟩
  · rw [if_neg (by decide : ¬("mixed" : String) = "dirichlet"),
      if_neg (by decide : ¬("mixed" : String) = "neumann"), if_pos rfl,
      if_neg (show ¬nx - 1 = 0 by omega), if_pos rfl]
  · rw [if_neg (by decide : ¬("mixed" : String) = "dirichlet"),
      if_neg (by decide : ¬("mixed" : String) = "neumann"), if_pos rfl,
      if_neg (show ¬nx - 2 = 0 by omega), if_neg (show ¬nx - 2 = nx - 1 by omega)]

/-! ## Claim theorems -/

/-- Claim C1: for the canonical configuration (HEAT, SINUSOIDAL, DIRICHLET)
the analytical solve returns the field whose entry at grid point `(t_j, x_i)`
is `sin(π·x_i)·exp(-α·π²·t_j)` (the core solver works on the unit domain
`L = 1`), and `HeatEquation.analytical_solution_dirichlet` special-cases the
series to the single mode `B_1 = 1`, all other coefficients zero, so that for
any truncation length `n_terms ≥ 1` it equals
`sin(π·x/L)·exp(-α·(π/L)²·t)` exactly. -/
theorem analytical_canonical_closed_form (alpha : ℝ) (nx nt : ℕ) (T L : ℝ)
    (hnx : 2 ≤ nx) (hnt : 2 ≤ nt) (hT : 0 < T) (ha : 0 < alpha)
    (j i : ℕ) (hj : j < nt) (hi : i < nx)
    (x t : ℝ) (nTerms : ℕ) (hterms : 1 ≤ nTerms) :
    analyticalSolveField alpha nx nt T "sinusoidal" j i =
      Real.sin (Real.pi * xGrid nx i) * Real.exp (-alpha * Real.pi ^ 2 * tGrid T nt j)
    ∧ analytical_solution_dirichlet ⟨alpha, L⟩ x t nTerms =
      Real.sin (Real.pi * x / L) * Real.exp (-alpha * (Real.pi / L) ^ 2 * t) := by
  constructor
  · simp [analyticalSolveField, icAnalytical]
  · unfold analytical_solution_dirichlet
    rw [Finset.sum_eq_single 1]
    · norm_num
    · intro b _ hb
      simp [hb]
    · intro h
      exact absurd (Finset.mem_Icc.mpr ⟨le_refl 1, hterms⟩) h

theorem analytical_canonical_closed_form_witness :
    ((2 : ℕ) ≤ 2 ∧ (0 : ℝ) < 1 ∧ (1 : ℕ) ≤ 1) ∧
    (analyticalSolveField 1 2 2 1 "sinusoidal" 1 1 =
      Real.sin (Real.pi * xGrid 2 1) * Real.exp (-1 * Real.pi ^ 2 * tGrid 1 2 1)
    ∧ analytical_solution_dirichlet ⟨1, 1⟩ 0 0 1 =
      Real.sin (Real.pi * 0 / 1) * Real.exp (-1 * (Real.pi / 1) ^ 2 * 0)) :=
  ⟨⟨by norm_num, by norm_num, by norm_num⟩,
   analytical_canonical_closed_form 1 2 2 1 1 (by norm_num) (by norm_num) (by norm_num)
     (by norm_num) 1 1 (by norm_num) (by norm_num) 0 0 1 (by norm_num)⟩

/-- Claim C2: each step computes the interior of row `n+1` by the FTCS rule
`u[n+1,i] = u[n,i] + r·(u[n,i+1] - 2·u[n,i] + u[n,i-1])` with
`r = α·dt/dx²`, then overwrites both boundary entries: DIRICHLET pins both
ends to the fixed value `0`, NEUMANN copies each end from its nearest interior
neighbour of row `n+1`, MIXED is Dirichlet on the left and Neumann on the
right. -/
theorem fd_step_and_boundary (alpha : ℝ) (nx nt : ℕ) (T : ℝ) (ic bc : String)
    (n i : ℕ) (hn : n + 2 ≤ nt) (hi1 : 1 ≤ i) (hi2 : i + 2 ≤ nx) :
    fdRow alpha nx nt T ic bc (n + 1) i =
      fdRow alpha nx nt T ic bc n i + rVal alpha nx nt T *
        (fdRow alpha nx nt T ic bc n (i + 1) - 2 * fdRow alpha nx nt T ic bc n i +
         fdRow alpha nx nt T ic bc n (i - 1))
    ∧ (fdRow alpha nx nt T ic "dirichlet" (n + 1) 0 = 0 ∧
       fdRow alpha nx nt T ic "dirichlet" (n + 1) (nx - 1) = 0)
    ∧ (fdRow alpha nx nt T ic "neumann" (n + 1) 0 =
         fdRow alpha nx nt T ic "neumann" (n + 1) 1 ∧
       fdRow alpha nx nt T ic "neumann" (n + 1) (nx - 1) =
         fdRow alpha nx nt T ic "neumann" (n + 1) (nx - 2))
    ∧ (fdRow alpha nx nt T ic "mixed" (n + 1) 0 = 0 ∧
       fdRow alpha nx nt T ic "mixed" (n + 1) (nx - 1) =
         fdRow alpha nx nt T ic "mixed" (n + 1) (nx - 2)) := by
  have hnx : 3 ≤ nx := by omega
  refine ⟨fdRow_interior_step alpha nx nt T ic bc n i hi1 hi2, ?_, ?_, ?_⟩
  · rw [fdRow_succ, fdRow_succ]
    exact fdApplyBC_dirichlet_ends nx _ (by omega)
  · rw [fdRow_succ, fdRow_succ, fdRow_succ, fdRow_succ]
    obtain ⟨⟨h1, h2⟩, h3, h4⟩ := fdApplyBC_neumann_ends nx
      (fdInterior (rVal alpha nx nt T) nx (fdRow alpha nx nt T ic "neumann" n)) hnx
    exact ⟨h1.trans h2.symm, h3.trans h4.symm⟩
  · rw [fdRow_succ, fdRow_succ, fdRow_succ]
    obtain ⟨h1, h2, h3⟩ := fdApplyBC_mixed_ends nx
      (fdInterior (rVal alpha nx nt T) nx (fdRow alpha nx nt T ic "mixed" n)) hnx
    exact ⟨h1, h2.trans h3.symm⟩

theorem fd_step_and_boundary_witness :
    ((0 : ℕ) + 2 ≤ 3 ∧ (1 : ℕ) ≤ 1 ∧ (1 : ℕ) + 2 ≤ 3) ∧
    (fdRow 1 3 3 1 "sinusoidal" "dirichlet" 1 1 =
      fdRow 1 3 3 1 "sinusoidal" "dirichlet" 0 1 + rVal 1 3 3 1 *
        (fdRow 1 3 3 1 "sinusoidal" "dirichlet" 0 2 -
         2 * fdRow 1 3 3 1 "sinusoidal" "dirichlet" 0 1 +
         fdRow 1 3 3 1 "sinusoidal" "dirichlet" 0 0)
    ∧ (fdRow 1 3 3 1 "sinusoidal" "dirichlet" 1 0 = 0 ∧
       fdRow 1 3 3 1 "sinusoidal" "dirichlet" 1 (3 - 1) = 0)
    ∧ (fdRow 1 3 3 1 "sinusoidal" "neumann" 1 0 =
         fdRow 1 3 3 1 "sinusoidal" "neumann" 1 1 ∧
       fdRow 1 3 3 1 "sinusoidal" "neumann" 1 (3 - 1) =
         fdRow 1 3 3 1 "sinusoidal" "neumann" 1 (3 - 2))
    ∧ (fdRow 1 3 3 1 "sinusoidal" "mixed" 1 0 = 0 ∧
       fdRow 1 3 3 1 "sinusoidal" "mixed" 1 (3 - 1) =
         fdRow 1 3 3 1 "sinusoidal" "mixed" 1 (3 - 2))) :=
  ⟨⟨by norm_num, by norm_num, by norm_num⟩,
   fd_step_and_boundary 1 3 3 1 "sinusoidal" "dirichlet" 0 1 (by norm_num) (by norm_num)
     (by norm_num)⟩

/-- Claim C3: with all four parameter keys present and otherwise valid
values, `validate_parameters` surfaces the CFL advisory exactly when the
diffusion number `r = α·dt/dx²` exceeds `0.5` (for `r ≤ 0.5` the returned
error list is empty), and the solver itself never aborts on it: every step up
to the last row is still the FTCS update, with no condition on `r`.  The
advisory is raised by the validation pass that the controller runs before
stepping and shows as a non-blocking warning. -/
theorem stability_advisory (a T : ℚ) (nx nt : ℕ) (hnx : 2 ≤ nx) (hnt : 2 ≤ nt)
    (ha : 0 < a) (hT : 0 < T) :
    (1 / 2 < cflVal a nx nt T →
      "CFL condition violated" ∈ validate_parameters ⟨some a, some nx, some nt, some T⟩)
    ∧ (cflVal a nx nt T ≤ 1 / 2 →
      validate_parameters ⟨some a, some nx, some nt, some T⟩ = [])
    ∧ (∀ (alphaR TR : ℝ) (ic bc : String) (n i : ℕ), 1 ≤ i → i + 2 ≤ nx →
        fdRow alphaR nx nt TR ic bc (n + 1) i =
          fdRow alphaR nx nt TR ic bc n i + rVal alphaR nx nt TR *
            (fdRow alphaR nx nt TR ic bc n (i + 1) - 2 * fdRow alphaR nx nt TR ic bc n i +
             fdRow alphaR nx nt TR ic bc n (i - 1))) := by
  have h1 : ¬a ≤ 0 := not_le.mpr ha
  have h2 : ¬nx < 2 := by omega
  have h3 : ¬nt < 2 := by omega
  have h4 : ¬T ≤ 0 := not_le.mpr hT
  refine ⟨fun h => ?_, fun h => ?_, fun alphaR TR ic bc n i hi1 hi2 =>
    fdRow_interior_step alphaR nx nt TR ic bc n i hi1 hi2⟩
  · show "CFL condition violated" ∈
      (if a ≤ 0 then ["Alpha must be positive"] else []) ++
      (if nx < 2 then ["nx must be at least 2"] else []) ++
      (if nt < 2 then ["nt must be at least 2"] else []) ++
      (if T ≤ 0 then ["T must be positive"] else []) ++
      (if 1 / 2 < cflVal a nx nt T then ["CFL condition violated"] else [])
    rw [if_neg h1, if_neg h2, if_neg h3, if_neg h4, if_pos h]
    simp
  · show (if a ≤ 0 then ["Alpha must be positive"] else []) ++
      (if nx < 2 then ["nx must be at least 2"] else []) ++
      (if nt < 2 then ["nt must be at least 2"] else []) ++
      (if T ≤ 0 then ["T must be positive"] else []) ++
      (if 1 / 2 < cflVal a nx nt T then ["CFL condition violated"] else []) = []
    rw [if_neg h1, if_neg h2, if_neg h3, if_neg h4, if_neg (not_lt.mpr h)]
    rfl

theorem stability_advisory_witness :
    ((2 : ℕ) ≤ 100 ∧ (0 : ℚ) < 1 / 100 ∧ (1 : ℚ) / 2 < cflVal (1 / 100) 100 100 1) ∧
    "CFL condition violated" ∈
      validate_parameters ⟨some (1 / 100), some 100, some 100, some 1⟩ :=
  ⟨⟨by norm_num, by norm_num, by norm_num [cflVal]⟩,
   (stability_advisory (1 / 100) 1 100 100 (by norm_num) (by norm_num) (by norm_num)
     (by norm_num)).1 (by norm_num [cflVal])⟩

/-- Claim C4: whenever the two spatial grids differ in length or fail
`np.allclose`, `compare_solutions` reports `grids_matched = false` and carries
the comparison out on a common grid of exactly `max(nx₁, nx₂)` uniformly
spaced points `np.linspace(0, 1, max(nx₁, nx₂))` spanning the unit domain
(the solvers all use `domain_length = 1`), onto which both final-time rows
are linearly interpolated. -/
theorem compare_mismatched_grids (ad nd : SolutionData)
    (h : ad.x.length ≠ nd.x.length ∨ npAllclose ad.x nd.x = false) :
    (compare_solutions (some ad) (some nd)).map ComparisonOut.gridsMatch = some false
    ∧ (compare_solutions (some ad) (some nd)).map ComparisonOut.commonX =
        some (npLinspace01 (max ad.x.length nd.x.length))
    ∧ ((compare_solutions (some ad) (some nd)).map fun c => c.commonX.length) =
        some (max ad.x.length nd.x.length) := by
  have hcond : ¬(ad.x.length = nd.x.length ∧ npAllclose ad.x nd.x = true) := by
    rcases h with h | h
    · exact fun hc => h hc.1
    · exact fun hc => by
        rw [h] at hc
        exact Bool.false_ne_true hc.2
  simp only [compare_solutions]
  rw [if_neg hcond]
  refine ⟨rfl, rfl, ?_⟩
  have hlen : (npLinspace01 (max ad.x.length nd.x.length)).length =
      max ad.x.length nd.x.length := by
    unfold npLinspace01
    rw [List.length_map, List.length_range]
  show some ((npLinspace01 (max ad.x.length nd.x.length)).length) =
    some (max ad.x.length nd.x.length)
  exact congrArg some hlen

theorem compare_mismatched_grids_witness :
    ((⟨[[0, 0]], [0, 1]⟩ : SolutionData).x.length ≠
      (⟨[[0, 0, 0]], [0, 1 / 2, 1]⟩ : SolutionData).x.length) ∧
    ((compare_solutions (some ⟨[[0, 0]], [0, 1]⟩)
        (some ⟨[[0, 0, 0]], [0, 1 / 2, 1]⟩)).map ComparisonOut.gridsMatch = some false
    ∧ ((compare_solutions (some ⟨[[0, 0]], [0, 1]⟩)
        (some ⟨[[0, 0, 0]], [0, 1 / 2, 1]⟩)).map fun c => c.commonX.length) = some 3) :=
  ⟨by decide,
   ⟨(compare_mismatched_grids ⟨[[0, 0]], [0, 1]⟩ ⟨[[0, 0, 0]], [0, 1 / 2, 1]⟩
       (Or.inl (by decide))).1,
    (compare_mismatched_grids ⟨[[0, 0]], [0, 1]⟩ ⟨[[0, 0, 0]], [0, 1 / 2, 1]⟩
       (Or.inl (by decide))).2.2⟩⟩

lemma zip_self_abs_sub (l : List ℚ) :
    (l.zip l).map (fun p => |p.1 - p.2|) = List.replicate l.length 0 := by
  induction l with
  | nil => rfl
  | cons a t ih =>
    rw [List.zip_cons_cons, List.map_cons, ih, List.length_cons, List.replicate_succ]
    rw [sub_self, abs_zero]

lemma npAllclose_self (l : List ℚ) : npAllclose l l = true := by
  induction l with
  | nil => rfl
  | cons a t ih =>
    unfold npAllclose at ih ⊢
    rw [List.zip_cons_cons, List.all_cons, ih, Bool.and_true, decide_eq_true_iff]
    rw [sub_self, abs_zero]
    positivity

lemma foldl_max_zero_replicate (m : ℕ) : (List.replicate m (0 : ℚ)).foldl max 0 = 0 := by
  induction m with
  | zero => rfl
  | succ k ih => rw [List.replicate_succ, List.foldl_cons, max_self]; exact ih

lemma npMax_replicate_zero (n : ℕ) (h : 1 ≤ n) : npMax (List.replicate n (0 : ℚ)) = 0 := by
  obtain ⟨k, rfl⟩ : ∃ k, n = k + 1 := ⟨n - 1, by omega⟩
  rw [List.replicate_succ]
  exact foldl_max_zero_replicate k

lemma npMean_replicate_zero (n : ℕ) : npMean (List.replicate n (0 : ℚ)) = 0 := by
  unfold npMean
  rw [List.sum_replicate]
  simp

lemma npMeanSq_replicate_zero (n : ℕ) : npMeanSq (List.replicate n (0 : ℚ)) = 0 := by
  unfold npMeanSq
  rw [List.map_replicate]
  norm_num [List.sum_replicate]

/-- Claim C5: comparing a result with itself takes the matched-grids branch
(`grids_matched = true`), returns the input grid itself (interpolation is
skipped), and yields the all-zero pointwise error array, so the controller's
max error, mean error and root-mean-square error are all exactly `0`. -/
theorem compare_self_exact (d : SolutionData) (hne : lastRow d ≠ []) :
    (compare_solutions (some d) (some d)).map ComparisonOut.gridsMatch = some true
    ∧ (compare_solutions (some d) (some d)).map ComparisonOut.commonX = some d.x
    ∧ (compare_solutions (some d) (some d)).map ComparisonOut.err =
        some (List.replicate (lastRow d).length 0)
    ∧ npMax (List.replicate (lastRow d).length (0 : ℚ)) = 0
    ∧ npMean (List.replicate (lastRow d).length (0 : ℚ)) = 0
    ∧ Real.sqrt ((npMeanSq (List.replicate (lastRow d).length (0 : ℚ)) : ℚ) : ℝ) = 0 := by
  have hmatch : d.x.length = d.x.length ∧ npAllclose d.x d.x = true :=
    ⟨rfl, npAllclose_self d.x⟩
  have hcomp : compare_solutions (some d) (some d) =
      some ⟨((lastRow d).zip (lastRow d)).map fun p => |p.1 - p.2|, d.x, true⟩ := by
    simp only [compare_solutions]
    rw [if_pos (show True ∧ npAllclose d.x d.x = true from ⟨trivial, npAllclose_self d.x⟩)]
  rw [hcomp]
  refine ⟨rfl, rfl, ?_, ?_, npMean_replicate_zero _, ?_⟩
  · show some (((lastRow d).zip (lastRow d)).map fun p => |p.1 - p.2|) =
      some (List.replicate (lastRow d).length 0)
    rw [zip_self_abs_sub]
  · exact npMax_replicate_zero _ (List.length_pos.mpr hne)
  · rw [npMeanSq_replicate_zero]
    norm_num

theorem compare_self_exact_witness :
    lastRow ⟨[[1, 2]], [0, 1]⟩ = [1, 2] ∧
    ((compare_solutions (some ⟨[[1, 2]], [0, 1]⟩) (some ⟨[[1, 2]], [0, 1]⟩)).map
        ComparisonOut.gridsMatch = some true
    ∧ npMax (List.replicate (lastRow (⟨[[1, 2]], [0, 1]⟩ : SolutionData)).length (0 : ℚ)) = 0) :=
  ⟨by decide,
   ⟨(compare_self_exact ⟨[[1, 2]], [0, 1]⟩ (by decide)).1,
    (compare_self_exact ⟨[[1, 2]], [0, 1]⟩ (by decide)).2.2.2.1⟩⟩

lemma icFD_abs_le_one (ic : String) (x : ℝ) : |icFD ic x| ≤ 1 := by
  unfold icFD
  split_ifs with h1 h2 h3 h4
  · exact Real.abs_sin_le_one _
  · rw [abs_of_pos (Real.exp_pos _), Real.exp_le_one_iff]
    nlinarith [sq_nonneg (x - 1 / 2)]
  · norm_num
  · norm_num
  · norm_num

lemma fdInterior_abs_le_one (r : ℝ) (hr0 : 0 ≤ r) (hr : r ≤ 1 / 2) (nx : ℕ) (row : ℕ → ℝ)
    (hrow : ∀ k, |row k| ≤ 1) (i : ℕ) : |fdInterior r nx row i| ≤ 1 := by
  unfold fdInterior
  split_ifs with h
  · have e : row i + r * (row (i + 1) - 2 * row i + row (i - 1)) =
        (1 - 2 * r) * row i + r * row (i + 1) + r * row (i - 1) := by ring
    rw [e]
    have b1 := hrow i
    have b2 := hrow (i + 1)
    have b3 := hrow (i - 1)
    have a1 : |(1 - 2 * r) * row i| ≤ 1 - 2 * r := by
      rw [abs_mul, abs_of_nonneg (by linarith : (0 : ℝ) ≤ 1 - 2 * r)]
      nlinarith [abs_nonneg (row i)]
    have a2 : |r * row (i + 1)| ≤ r := by
      rw [abs_mul, abs_of_nonneg hr0]
      nlinarith [abs_nonneg (row (i + 1))]
    have a3 : |r * row (i - 1)| ≤ r := by
      rw [abs_mul, abs_of_nonneg hr0]
      nlinarith [abs_nonneg (row (i - 1))]
    calc |(1 - 2 * r) * row i + r * row (i + 1) + r * row (i - 1)|
        ≤ |(1 - 2 * r) * row i + r * row (i + 1)| + |r * row (i - 1)| := abs_add _ _
      _ ≤ |(1 - 2 * r) * row i| + |r * row (i + 1)| + |r * row (i - 1)| := by
          linarith [abs_add ((1 - 2 * r) * row i) (r * row (i + 1))]
      _ ≤ 1 := by linarith
  · norm_num

lemma fdRow_abs_le_one (alpha : ℝ) (nx nt : ℕ) (T : ℝ) (ic bc : String)
    (hr0 : 0 ≤ rVal alpha nx nt T) (hr : rVal alpha nx nt T ≤ 1 / 2) :
    ∀ n i, |fdRow alpha nx nt T ic bc n i| ≤ 1 := by
  intro n
  induction n with
  | zero => exact fun i => icFD_abs_le_one ic (xGrid nx i)
  | succ k ih =>
    intro i
    have hint : ∀ j, |fdInterior (rVal alpha nx nt T) nx (fdRow alpha nx nt T ic bc k) j| ≤ 1 :=
      fdInterior_abs_le_one _ hr0 hr nx _ ih
    rw [fdRow_succ]
    unfold fdApplyBC
    split_ifs <;> first | exact hint _ | norm_num

/-- Claim C6: when the diffusion number satisfies `r = α·dt/dx² ≤ 1/2` (and
the parameters are in range, so `r ≥ 0`), every entry of the
finite-difference field is bounded in absolute value by `1`, the common bound
of all three built-in initial profiles and of the boundary data — each FTCS
step is a convex combination `(1-2r)·u[n,i] + r·u[n,i+1] + r·u[n,i-1]` plus
the boundary overwrite, so the field stays finite (no NaN/Inf can arise). -/
theorem fd_field_bounded (alpha : ℝ) (nx nt : ℕ) (T : ℝ) (ic bc : String)
    (hnx : 2 ≤ nx) (hnt : 2 ≤ nt) (hT : 0 < T) (ha : 0 < alpha)
    (hr : rVal alpha nx nt T ≤ 1 / 2) :
    ∀ n, n < nt → ∀ i, i < nx → |fdRow alpha nx nt T ic bc n i| ≤ 1 := by
  have hr0 : 0 ≤ rVal alpha nx nt T := by
    unfold rVal dtVal dxVal
    positivity
  exact fun n _ i _ => fdRow_abs_le_one alpha nx nt T ic bc hr0 hr n i

theorem fd_field_bounded_witness :
    rVal (1 / 2) 2 2 1 ≤ 1 / 2 ∧ |fdRow (1 / 2) 2 2 1 "sinusoidal" "dirichlet" 1 1| ≤ 1 :=
  ⟨by norm_num [rVal, dtVal, dxVal],
   fd_field_bounded (1 / 2) 2 2 1 "sinusoidal" "dirichlet" (by norm_num) (by norm_num)
     (by norm_num) (by norm_num) (by norm_num [rVal, dtVal, dxVal]) 1 (by norm_num) 1
     (by norm_num)⟩

/-- Claim C7 counterexample: constructing a `HeatEquation` with diffusivity
`alpha = -1 ≤ 0` does not fail with `InvalidParameterError` (or at all): the
constructor body contains no validation and returns the instance. -/
theorem heat_equation_init_accepts_nonpositive :
    heatEquationInit (-1) 1 = Except.ok ⟨-1, 1⟩
    ∧ exceptOk (heatEquationInit (-1) 1) = true :=
  ⟨rfl, rfl⟩

/-- Claim C7 (amended): no parameter validation exists anywhere on these
paths.  `HeatEquation.__init__` stores any `alpha` and `L` (including
non-positive values) and always returns normally; `FiniteDifferenceSolver.solve`
accepts any `T` and any tag strings without raising — an unrecognized
`ic_type` silently leaves the initial row all zero, and an unrecognized
`bc_type` silently leaves both boundary entries of every later row at the
`np.zeros` value `0`. -/
theorem no_parameter_validation :
    (∀ alpha L : ℝ, heatEquationInit alpha L = Except.ok ⟨alpha, L⟩)
    ∧ (∀ (alpha : ℝ) (nx nt : ℕ) (T : ℝ) (bc ic : String) (i : ℕ),
        ic ≠ "sinusoidal" → ic ≠ "gaussian" → ic ≠ "step" →
        fdRow alpha nx nt T ic bc 0 i = 0)
    ∧ (∀ (alpha : ℝ) (nx nt : ℕ) (T : ℝ) (ic bc : String) (n : ℕ),
        bc ≠ "dirichlet" → bc ≠ "neumann" → bc ≠ "mixed" →
        fdRow alpha nx nt T ic bc (n + 1) 0 = 0 ∧
        fdRow alpha nx nt T ic bc (n + 1) (nx - 1) = 0) := by
  refine ⟨fun _ _ => rfl, ?_, ?_⟩
  · intro alpha nx nt T bc ic i h1 h2 h3
    show icFD ic (xGrid nx i) = 0
    unfold icFD
    rw [if_neg h1, if_neg h2, if_neg h3]
  · intro alpha nx nt T ic bc n h1 h2 h3
    rw [fdRow_succ, fdRow_succ]
    unfold fdApplyBC
    rw [if_neg h1, if_neg h2, if_neg h3, if_neg h1, if_neg h2, if_neg h3]
    constructor
    · unfold fdInterior
      rw [if_neg (by omega : ¬(1 ≤ 0 ∧ 0 + 1 < nx))]
    · unfold fdInterior
      rw [if_neg (by omega : ¬(1 ≤ nx - 1 ∧ nx - 1 + 1 < nx))]

theorem no_parameter_validation_witness :
    (("quadratic" : String) ≠ "sinusoidal" ∧ ("periodic" : String) ≠ "dirichlet") ∧
    (fdRow 1 3 3 1 "quadratic" "dirichlet" 0 1 = 0
    ∧ (fdRow 1 3 3 1 "sinusoidal" "periodic" 1 0 = 0 ∧
       fdRow 1 3 3 1 "sinusoidal" "periodic" 1 (3 - 1) = 0)) :=
  ⟨⟨by decide, by decide⟩,
   ⟨no_parameter_validation.2.1 1 3 3 1 "dirichlet" "quadratic" 1 (by decide) (by decide)
      (by decide),
    no_parameter_validation.2.2 1 3 3 1 "sinusoidal" "periodic" 0 (by decide) (by decide)
      (by decide)⟩⟩

/-- Claim C8 counterexample: the analytical solver called with the
non-Dirichlet boundary tag `"neumann"` does not fail with
`UnsupportedConfigurationError` — it returns a solution field, and that field
is exactly the one returned for `"dirichlet"` (the Dirichlet sine-mode
closed form, silently reused). -/
theorem analytical_neumann_not_rejected :
    exceptOk (analyticalSolve 1 2 2 1 "sinusoidal" "neumann") = true
    ∧ analyticalSolve 1 2 2 1 "sinusoidal" "neumann" =
        Except.ok (analyticalSolveField 1 2 2 1 "sinusoidal")
    ∧ analyticalSolve 1 2 2 1 "sinusoidal" "neumann" =
        analyticalSolve 1 2 2 1 "sinusoidal" "dirichlet" :=
  ⟨rfl, rfl, rfl⟩

/-- Claim C8 (amended): `AnalyticalSolver.solve` of
`core/solvers/analytical.py` never fails for any boundary tag: `bc_type` is
accepted but never read, so every call returns the same field it would return
for DIRICHLET — non-Dirichlet configurations are silently approximated with
the Dirichlet closed form rather than rejected. -/
theorem analytical_solve_ignores_bc (alpha : ℝ) (nx nt : ℕ) (T : ℝ) (ic bc : String) :
    analyticalSolve alpha nx nt T ic bc = Except.ok (analyticalSolveField alpha nx nt T ic)
    ∧ analyticalSolve alpha nx nt T ic bc = analyticalSolve alpha nx nt T ic "dirichlet" :=
  ⟨rfl, rfl⟩

/-- Claim C9: `solve_finite_difference` is a pure, deterministic function of
its explicit inputs: any two parameter records that agree componentwise
produce identical `(u, x, t)` results.  (There is no hidden state in the
source; the wall-clock `computation_time` component of the Python return
tuple is by nature not a function of the inputs and is outside the
embedding.) -/
theorem fd_solve_deterministic (p q : FDParams)
    (h1 : p.alpha = q.alpha) (h2 : p.nx = q.nx) (h3 : p.nt = q.nt)
    (h4 : p.T = q.T) (h5 : p.icType = q.icType) (h6 : p.bcType = q.bcType) :
    solve_finite_difference p = solve_finite_difference q := by
  have hpq : p = q := by
    cases p
    cases q
    simp_all
  rw [hpq]

theorem fd_solve_deterministic_witness :
    ((⟨1, 3, 3, 1, "sinusoidal", "dirichlet"⟩ : FDParams).alpha =
      (⟨1, 3, 3, 1, "sinusoidal", "dirichlet"⟩ : FDParams).alpha) ∧
    solve_finite_difference ⟨1, 3, 3, 1, "sinusoidal", "dirichlet"⟩ =
      solve_finite_difference ⟨1, 3, 3, 1, "sinusoidal", "dirichlet"⟩ :=
  ⟨rfl, fd_solve_deterministic ⟨1, 3, 3, 1, "sinusoidal", "dirichlet"⟩
    ⟨1, 3, 3, 1, "sinusoidal", "dirichlet"⟩ rfl rfl rfl rfl rfl rfl⟩

/-- Claim C10 counterexample: the backend analytical entry point does not
raise for every input — with `nt = 0` the time loop body never executes, so
the missing-attribute lookup never happens and the call returns the empty
`np.zeros((0, nx))` field normally. -/
theorem backend_analytical_nt_zero_returns :
    exceptOk (backendAnalyticalSolve 1 100 0 1) = true :=
  rfl

/-- Claim C10 (amended): for every input that enters the time loop at least
once (`nt ≥ 1`), `backend/solvers/analytical.py`'s `AnalyticalSolver.solve`
raises `AttributeError` and never returns a solution field, because it
invokes `equation.analytical_solution(x, time)` while `HeatEquation` defines
only `analytical_solution_dirichlet` and `analytical_solution_general`. -/
theorem backend_analytical_raises (alpha : ℝ) (nx nt : ℕ) (T : ℝ) (h : 1 ≤ nt) :
    backendAnalyticalSolve alpha nx nt T = Except.error PyError.attributeError := by
  unfold backendAnalyticalSolve
  rw [if_neg (by omega : ¬nt = 0),
    if_neg (by decide : ¬("analytical_solution" ∈ heatEquationAttrs))]

theorem backend_analytical_raises_witness :
    (1 : ℕ) ≤ 100 ∧ backendAnalyticalSolve 1 100 100 1 = Except.error PyError.attributeError :=
  ⟨by norm_num, backend_analytical_raises 1 100 100 1 (by norm_num)⟩

end PdeBench
